import Mathlib

/-!
Shallow embedding of the `cisco-ios-show-parser` scripts.

The repository is a set of Python scripts that parse textual output of
Cisco IOS `show` commands.  This file embeds, directly from the source:

* the helper string operations the scripts rely on (`str.strip`,
  `str.rstrip`, `str.split('.')`, `str.find`, `str.startswith`, slices,
  `int(...)`, string repetition),
* a backtracking regular-expression matcher covering exactly the
  constructs used by the scripts' patterns (literals, `.`, `\d`, `\s`,
  greedy `*`, `+`, `{lo,hi}`, named groups), with Python `re.match` /
  `re.search` semantics (leftmost position, greedy-first backtracking),
* the `IPv4RouteEntry` class and `CiscoIosShowIpRouteParser.parse_lines`
  state machine from `bin/cisco_ios_show_ip_route.py`,
* the filters and `get_filter_result` of the route and cdp scripts,
* the `show cdp neighbors` and `show interfaces status` parsers and the
  cdp `main` control flow.

Python exceptions (`AttributeError`, `ValueError`, `IndexError`) are
modelled with `Except PyErr`; a generator is modelled as the list of its
yielded values together with the exception, if any, that stopped it.
-/

set_option maxRecDepth 10000

deriving instance DecidableEq for Except

namespace CiscoShow

/-- Python exceptions that the embedded code can raise. -/
inductive PyErr where
  | attributeError
  | valueError
  | indexError
deriving DecidableEq, Repr

/-- Python `str.isspace` characters relevant to `strip`/`rstrip` and `\s`
(ASCII whitespace: space, tab, newline, carriage return, vertical tab,
form feed). -/
def pyIsSpace (c : Char) : Bool :=
  c = ' ' || c = '\t' || c = '\n' || c = '\r' || c = '\x0b' || c = '\x0c'

/-- Python `str.strip()` (no argument): drop whitespace on both ends. -/
def pyStrip (s : String) : String :=
  String.mk (((s.data.dropWhile pyIsSpace).reverse.dropWhile pyIsSpace).reverse)

/-- Python `str.rstrip()`: drop whitespace on the right end. -/
def pyRstrip (s : String) : String :=
  String.mk ((s.data.reverse.dropWhile pyIsSpace).reverse)

/-- Value of a list of decimal digits. -/
def digitsVal (l : List Char) : Nat :=
  l.foldl (fun n c => n * 10 + (c.toNat - '0'.toNat)) 0

/-- A non-empty all-digit string's value, `none` otherwise. -/
def digits? (l : List Char) : Option Nat :=
  if l.isEmpty then none
  else if l.all Char.isDigit then some (digitsVal l) else none

/-- Python `int(s)` on a string: optional surrounding whitespace, optional
sign, at least one digit; raises `ValueError` (here: `none`) otherwise. -/
def pyInt? (s : String) : Option Int :=
  match (pyStrip s).data with
  | [] => none
  | c :: ds =>
    if c = '-' then (digits? ds).map (fun n => -(n : Int))
    else if c = '+' then (digits? ds).map (fun n => (n : Int))
    else (digits? (c :: ds)).map (fun n => (n : Int))

/-- Helper for `pySplitDot`. -/
def splitDotAux : List Char → List Char → List String
  | [], acc => [String.mk acc.reverse]
  | c :: rest, acc =>
    if c = '.' then String.mk acc.reverse :: splitDotAux rest []
    else splitDotAux rest (c :: acc)

/-- Python `s.split('.')`: keeps empty components, `'' → ['']`. -/
def pySplitDot (s : String) : List String :=
  splitDotAux s.data []

/-- Python string repetition `s * n`. -/
def pyRepeat (s : String) (n : Nat) : String :=
  String.mk (List.flatten (List.replicate n s.data))

/-- Python slice `s[a:b]` on a string (clamping, character based). -/
def pySlice (s : String) (a b : Nat) : String :=
  String.mk ((s.data.drop a).take (b - a))

/-- Python slice `s[a:]`. -/
def pySliceFrom (s : String) (a : Nat) : String :=
  String.mk (s.data.drop a)

/-- Is `pat` a leading pattern of `s` (character-wise)? -/
def leadsWith : List Char → List Char → Bool
  | [], _ => true
  | _ :: _, [] => false
  | c :: cs, d :: ds => c = d && leadsWith cs ds

/-- Python `s.find(sub) >= 0`, i.e. `sub` occurs in `s`. -/
def hasSub (sub : List Char) : List Char → Bool
  | [] => leadsWith sub []
  | c :: rest => leadsWith sub (c :: rest) || hasSub sub rest

/-- Python `d.get(key, default)` on an (ordered) dict modelled as an
association list. -/
def dictGet (d : List (String × String)) (key default : String) : String :=
  match d.find? (fun p => p.1 = key) with
  | some p => p.2
  | none => default

/-! ## Regular expressions

The scripts use a small fragment of Python `re`: literal characters,
`.` (any char except newline), `\d`, `\s`, greedy `*` / `+` / `{lo,hi}`
over single-character classes, and named groups.  The matcher below is a
backtracking matcher in continuation-passing style with exactly Python's
preference order (greedy repetitions try the longest consumption first),
so `reMatch0` is `pattern.match(s)` and `reSearch` is
`pattern.search(s)` (leftmost starting position wins).  The optional
`ci` flag is `re.IGNORECASE`, which in these patterns only affects
literal characters. -/

/-- Single-character classes appearing in the scripts' patterns. -/
inductive CharCls where
  | dot
  | digit
  | space
deriving DecidableEq, Repr

/-- Which characters a class matches (Python, no DOTALL). -/
def clsMatch : CharCls → Char → Bool
  | .dot, c => c ≠ '\n'
  | .digit, c => c.isDigit
  | .space, c => pyIsSpace c

/-- The named groups used by the scripts' patterns. -/
inductive GName where
  | gAddr
  | gMask
  | gProto
  | gGw
  | gIntf
deriving DecidableEq, Repr

/-- Regular expressions: the fragment used by the scripts. -/
inductive RE where
  | eps
  | lit (c : Char)
  | cls (cc : CharCls)
  | cat (a b : RE)
  | starCls (cc : CharCls)
  | plusCls (cc : CharCls)
  | repCls (cc : CharCls) (lo hi : Nat)
  | grp (g : GName) (a : RE)
deriving DecidableEq, Repr

/-- Length of the maximal run of characters of class `cc` at the head. -/
def maxRun (cc : CharCls) : List Char → Nat
  | [] => 0
  | a :: rest => if clsMatch cc a then maxRun cc rest + 1 else 0

/-- Captures recorded during a match. -/
abbrev Caps := List (GName × String)

/-- Greedy Kleene-style backtracking: try consuming `j` characters (all
known to match the class), on failure retry with one fewer. -/
def starM (s : List Char) : Nat → Caps →
    (List Char → Caps → Option Caps) → Option Caps
  | 0, caps, k => k s caps
  | j + 1, caps, k =>
    match k (s.drop (j + 1)) caps with
    | some r => some r
    | none => starM s j caps k

/-- Greedy bounded repetition: try consuming `j` characters, on failure
one fewer, but never fewer than `lo`. -/
def repM (s : List Char) (lo : Nat) : Nat → Caps →
    (List Char → Caps → Option Caps) → Option Caps
  | 0, caps, k => if lo = 0 then k s caps else none
  | j + 1, caps, k =>
    if j + 1 < lo then none
    else
      match k (s.drop (j + 1)) caps with
      | some r => some r
      | none => repM s lo j caps k

/-- The text consumed between suffix states `s` and `s1` of the input. -/
def consumed (s s1 : List Char) : String :=
  String.mk (s.take (s.length - s1.length))

/-- Backtracking matcher in continuation-passing style.  `ci` is
`re.IGNORECASE` (affects literal characters only). -/
def reM (ci : Bool) : RE → List Char → Caps →
    (List Char → Caps → Option Caps) → Option Caps
  | .eps, s, caps, k => k s caps
  | .lit c, s, caps, k =>
    match s with
    | [] => none
    | a :: rest =>
      if (if ci then a.toLower = c.toLower else a = c) then k rest caps else none
  | .cls cc, s, caps, k =>
    match s with
    | [] => none
    | a :: rest => if clsMatch cc a then k rest caps else none
  | .cat r1 r2, s, caps, k =>
    reM ci r1 s caps (fun s1 c1 => reM ci r2 s1 c1 k)
  | .starCls cc, s, caps, k => starM s (maxRun cc s) caps k
  | .plusCls cc, s, caps, k =>
    match s with
    | [] => none
    | a :: rest =>
      if clsMatch cc a then starM rest (maxRun cc rest) caps k else none
  | .repCls cc lo hi, s, caps, k => repM s lo (min hi (maxRun cc s)) caps k
  | .grp g r, s, caps, k =>
    reM ci r s caps (fun s1 c1 => k s1 ((g, consumed s s1) :: c1))

/-- Python `pattern.match(s)`: anchored at the start (not at the end). -/
def reMatch0 (ci : Bool) (r : RE) (s : List Char) : Option Caps :=
  reM ci r s [] (fun _ caps => some caps)

/-- Python `pattern.search(s)`: leftmost starting position (all
positions, including the end of the string). -/
def reSearch (ci : Bool) (r : RE) : List Char → Option Caps
  | [] => reMatch0 ci r []
  | c :: rest =>
    match reMatch0 ci r (c :: rest) with
    | some caps => some caps
    | none => reSearch ci r rest

/-- `match.group(name)` (the patterns bind each group exactly once). -/
def capStr (g : GName) (caps : Caps) : String :=
  match caps.find? (fun p => p.1 = g) with
  | some p => p.2
  | none => ""

/-- Concatenate a list of regular expressions. -/
def rcat (l : List RE) : RE :=
  l.foldr RE.cat RE.eps

/-- A literal string as a regular expression. -/
def rstr (s : String) : RE :=
  rcat (s.data.map RE.lit)

/-- `\d{1,3}`. -/
def d13 : RE := RE.repCls .digit 1 3

/-- `\d{1,2}`. -/
def d12 : RE := RE.repCls .digit 1 2

/-- `(?:\d{1,3}\.){3}\d{1,3}` — a dotted quad. -/
def ipv4RE : RE :=
  rcat [d13, RE.lit '.', d13, RE.lit '.', d13, RE.lit '.', d13]

/-! ## `bin/cisco_ios_show_ip_route.py` — class variables

The class-level patterns of `CiscoIosShowIpRouteParser`, written with
the same names as in the source. -/

/-- `r'(?P<addr>(?:\d{1,3}\.){3}\d{1,3})/(?P<mask>\d{1,2}) is subnetted'` -/
def re_fixed_mask : RE :=
  rcat [RE.grp .gAddr ipv4RE, RE.lit '/', RE.grp .gMask d12, rstr " is subnetted"]

/-- `r'(?P<addr>(?:\d{1,3}\.){3}\d{1,3})/(?P<mask>\d{1,2}) is variably subnetted'` -/
def re_variable_mask : RE :=
  rcat [RE.grp .gAddr ipv4RE, RE.lit '/', RE.grp .gMask d12, rstr " is variably subnetted"]

/-- `r'(?P<proto>.*) (?P<addr>...)/(?P<mask>\d{1,2}) is directly connected,(?P<interface>.*)'` -/
def re_directly_connected : RE :=
  rcat [RE.grp .gProto (RE.starCls .dot), RE.lit ' ', RE.grp .gAddr ipv4RE,
    RE.lit '/', RE.grp .gMask d12, rstr " is directly connected,",
    RE.grp .gIntf (RE.starCls .dot)]

/-- `r'(?P<proto>.*) (?P<addr>...) \[\d+/\d+] via (?P<gw>...),.*,(?P<interface>.*)'` -/
def re_ipv4_fixed_prefix : RE :=
  rcat [RE.grp .gProto (RE.starCls .dot), RE.lit ' ', RE.grp .gAddr ipv4RE,
    rstr " [", RE.plusCls .digit, RE.lit '/', RE.plusCls .digit, rstr "] via ",
    RE.grp .gGw ipv4RE, RE.lit ',', RE.starCls .dot, RE.lit ',',
    RE.grp .gIntf (RE.starCls .dot)]

/-- `r'(?P<proto>.*) (?P<addr>...)/(?P<mask>\d{1,2}) \[\d+/\d+\] via (?P<gw>...),.*,(?P<interface>.*)'` -/
def re_ipv4_variable_prefix : RE :=
  rcat [RE.grp .gProto (RE.starCls .dot), RE.lit ' ', RE.grp .gAddr ipv4RE,
    RE.lit '/', RE.grp .gMask d12, rstr " [", RE.plusCls .digit, RE.lit '/',
    RE.plusCls .digit, rstr "] via ", RE.grp .gGw ipv4RE, RE.lit ',',
    RE.starCls .dot, RE.lit ',', RE.grp .gIntf (RE.starCls .dot)]

/-- `r'\s+\[\d+/\d+] via (?P<gw>...),.*,(?P<interface>.*)'` -/
def re_ipv4_prefix_ecmp : RE :=
  rcat [RE.plusCls .space, RE.lit '[', RE.plusCls .digit, RE.lit '/',
    RE.plusCls .digit, rstr "] via ", RE.grp .gGw ipv4RE, RE.lit ',',
    RE.starCls .dot, RE.lit ',', RE.grp .gIntf (RE.starCls .dot)]

/-! ## `IPv4RouteEntry` -/

/-- The `IPv4RouteEntry` object.  `proto` is an `Option` because
`parse_lines` can pass `None` for the ECMP continuation branch; `mask`
is `none` when the attribute was never set (the constructor only sets
it when the `mask` argument is a `str`). -/
structure IPv4RouteEntry where
  proto : Option String
  addr : String
  mask : Option Int
  gw : String
  interface : String
  addr32 : Int
deriving DecidableEq, Repr

/-- The `addr32` computation of `IPv4RouteEntry.__init__`, verbatim:
`cols = addr.split('.')` followed by
`int(cols[0]) * 256 * 256 * 256 + int(cols[1]) * 256 * 256 + int(cols[2] * 256) + int(cols[3])`.
Note that the third term is `int` of the string `cols[2]` repeated 256
times, exactly as written in the source.  Index and conversion failures
are `IndexError` / `ValueError`, in Python's evaluation order. -/
def addr32? (a : String) : Except PyErr Int :=
  let cols := pySplitDot a
  match cols[0]? with
  | none => .error .indexError
  | some c0 =>
    match pyInt? c0 with
    | none => .error .valueError
    | some v0 =>
      match cols[1]? with
      | none => .error .indexError
      | some c1 =>
        match pyInt? c1 with
        | none => .error .valueError
        | some v1 =>
          match cols[2]? with
          | none => .error .indexError
          | some c2 =>
            match pyInt? (pyRepeat c2 256) with
            | none => .error .valueError
            | some v2 =>
              match cols[3]? with
              | none => .error .indexError
              | some c3 =>
                match pyInt? c3 with
                | none => .error .valueError
                | some v3 =>
                  .ok (v0 * 256 * 256 * 256 + v1 * 256 * 256 + v2 + v3)

/-- `IPv4RouteEntry.__init__(proto, addr, mask, gw, interface)`.
`self.mask` is assigned only when `mask` is a `str` (via `int(mask)`,
which can raise `ValueError`); `addr.split('.')` raises
`AttributeError` when `addr` is `None`. -/
def mkIPv4RouteEntry (proto addr mask : Option String) (gw intf : String) :
    Except PyErr IPv4RouteEntry :=
  let maskv : Except PyErr (Option Int) :=
    match mask with
    | some ms =>
      match pyInt? ms with
      | some v => .ok (some v)
      | none => .error .valueError
    | none => .ok none
  match maskv with
  | .error err => .error err
  | .ok mv =>
    match addr with
    | none => .error .attributeError
    | some a =>
      match addr32? a with
      | .error err => .error err
      | .ok a32 => .ok ⟨proto, a, mv, gw, intf, a32⟩

/-- `IPv4RouteEntry.__eq__`:
`all([self.addr == other.addr, self.mask == other.mask, self.gw == other.gw])`.
Accessing a never-assigned `mask` attribute raises `AttributeError`. -/
def pyEq (x y : IPv4RouteEntry) : Except PyErr Bool :=
  match x.mask, y.mask with
  | some mx, some my => .ok (x.addr = y.addr && mx = my && x.gw = y.gw)
  | _, _ => .error .attributeError

/-- `IPv4RouteEntry.__ne__` (the same conjunction, negated). -/
def pyNe (x y : IPv4RouteEntry) : Except PyErr Bool :=
  match x.mask, y.mask with
  | some mx, some my => .ok (!(x.addr = y.addr && mx = my && x.gw = y.gw))
  | _, _ => .error .attributeError

/-- `IPv4RouteEntry.__lt__`: `self.addr32 < other.addr32`. -/
def pyLt (x y : IPv4RouteEntry) : Bool := x.addr32 < y.addr32

/-- `IPv4RouteEntry.__gt__`: `self.addr32 > other.addr32`. -/
def pyGt (x y : IPv4RouteEntry) : Bool := x.addr32 > y.addr32

/-- `IPv4RouteEntry.__le__`: `self.addr32 <= other.addr32`. -/
def pyLe (x y : IPv4RouteEntry) : Bool := x.addr32 ≤ y.addr32

/-- `IPv4RouteEntry.__ge__`: `self.addr32 >= other.addr32`. -/
def pyGe (x y : IPv4RouteEntry) : Bool := x.addr32 ≥ y.addr32

/-! ## `CiscoIosShowIpRouteParser.parse_lines` -/

/-- The mutable carry-over state of `parse_lines`
(`current_proto` / `current_mask` / `current_addr`, all `None` initially). -/
structure RouteParseState where
  current_proto : Option String
  current_mask : Option String
  current_addr : Option String
deriving DecidableEq, Repr

/-- The initial carry-over state of `parse_lines`. -/
def initRouteState : RouteParseState := ⟨none, none, none⟩

/-- One iteration of the `for line in lines` loop of `parse_lines`:
the regex alternatives are tried in the source's priority order; the
returned pair is the updated carry-over state and the yielded
`(IPv4RouteEntry, line)` tuple, if this line yields one. -/
def parseLinesStep (st : RouteParseState) (line : String) :
    Except PyErr (RouteParseState × Option (IPv4RouteEntry × String)) :=
  match reSearch false re_fixed_mask line.data with
  | some caps =>
    .ok ({ st with current_addr := some (capStr .gAddr caps),
                   current_mask := some (capStr .gMask caps) }, none)
  | none =>
  match reSearch false re_variable_mask line.data with
  | some _ => .ok (st, none)
  | none =>
  match reMatch0 false re_directly_connected line.data with
  | some caps =>
    (mkIPv4RouteEntry (some (pyStrip (capStr .gProto caps)))
        (some (capStr .gAddr caps)) (some (capStr .gMask caps)) ""
        (capStr .gIntf caps)).map
      (fun e => (st, some (e, line)))
  | none =>
  match reMatch0 false re_ipv4_variable_prefix line.data with
  | some caps =>
    let p := pyStrip (capStr .gProto caps)
    let a := capStr .gAddr caps
    let m := capStr .gMask caps
    (mkIPv4RouteEntry (some p) (some a) (some m) (capStr .gGw caps)
        (capStr .gIntf caps)).map
      (fun e => (⟨some p, some m, some a⟩, some (e, line)))
  | none =>
  match reMatch0 false re_ipv4_fixed_prefix line.data with
  | some caps =>
    let p := pyStrip (capStr .gProto caps)
    let a := capStr .gAddr caps
    (mkIPv4RouteEntry (some p) (some a) st.current_mask (capStr .gGw caps)
        (capStr .gIntf caps)).map
      (fun e => ({ st with current_proto := some p, current_addr := some a },
        some (e, line)))
  | none =>
  match reMatch0 false re_ipv4_prefix_ecmp line.data with
  | some caps =>
    (mkIPv4RouteEntry st.current_proto st.current_addr st.current_mask
        (capStr .gGw caps) (capStr .gIntf caps)).map
      (fun e => (st, some (e, line)))
  | none => .ok (st, none)

/-- Result of running the `parse_lines` generator: the values yielded
before the generator finished or raised, the exception (if any), and
the carry-over state at that point. -/
structure RunResult where
  out : List (IPv4RouteEntry × String)
  err : Option PyErr
  st : RouteParseState
deriving DecidableEq, Repr

/-- Run `parse_lines` from a given carry-over state over a list of
lines, collecting the yielded `(entry, line)` tuples. -/
def runLines (st : RouteParseState) : List String → RunResult
  | [] => ⟨[], none, st⟩
  | l :: rest =>
    match parseLinesStep st l with
    | .error e => ⟨[], some e, st⟩
    | .ok (st1, none) => runLines st1 rest
    | .ok (st1, some y) =>
      let r := runLines st1 rest
      ⟨y :: r.out, r.err, r.st⟩

/-- Which branch of `parse_lines` a line reaches (determined by the
line alone, since the dispatch only inspects the line). -/
inductive LineKind where
  | kFixedMask
  | kVarMask
  | kConnected
  | kVarPfx
  | kFixedPfx
  | kEcmp
  | kOther
deriving DecidableEq, Repr

/-- Classify a line by the branch of `parse_lines` it reaches. -/
def lineKind (line : String) : LineKind :=
  if (reSearch false re_fixed_mask line.data).isSome then .kFixedMask
  else if (reSearch false re_variable_mask line.data).isSome then .kVarMask
  else if (reMatch0 false re_directly_connected line.data).isSome then .kConnected
  else if (reMatch0 false re_ipv4_variable_prefix line.data).isSome then .kVarPfx
  else if (reMatch0 false re_ipv4_fixed_prefix line.data).isSome then .kFixedPfx
  else if (reMatch0 false re_ipv4_prefix_ecmp line.data).isSome then .kEcmp
  else .kOther

/-- The `mask` captured from a subnet-header line by `re_fixed_mask`
(the value stored into `current_mask`). -/
def headerMask (line : String) : Option String :=
  (reSearch false re_fixed_mask line.data).map (fun caps => capStr .gMask caps)

/-! ## Filters (`cisco_ios_show_ip_route.py` / `cisco_ios_show_logging.py`)

`filter_addr(query)` compiles `query` and returns a closure; here the
compiled pattern is the `RE` argument and the returned closure is the
partially applied function. -/

/-- `CiscoIosShowIpRouteParser.filter_addr`: the returned closure yields
the entry itself when the query matches `entry.addr` (via `search`),
`None` otherwise. -/
def filter_addr (query : RE) (e : IPv4RouteEntry) : Option IPv4RouteEntry :=
  if (reSearch false query e.addr.data).isSome then some e else none

/-- `CiscoIosShowLoggingParser.filter_dict(key, value_query)`: returns
`None` for a falsy (empty) key, otherwise a closure that yields the
dict when the query matches `d.get(key, "")` case-insensitively. -/
def filter_dict (key : String) (valueQuery : RE) :
    Option (List (String × String) → Option (List (String × String))) :=
  if key = "" then none
  else some (fun d =>
    if (reSearch true valueQuery (dictGet d key "").data).isSome then some d
    else none)

/-- `CiscoIosShowIpRouteParser.get_filter_result(d, funcs)`: applies
`funcs[0]`, recursing over the tail while the result is truthy.  An
`IPv4RouteEntry` object is always truthy, so truthiness of the result
is `isSome`.  `funcs[0]` on an empty list raises `IndexError`. -/
def get_filter_result (d : IPv4RouteEntry)
    (funcs : List (IPv4RouteEntry → Option IPv4RouteEntry)) :
    Except PyErr (Option IPv4RouteEntry) :=
  match funcs with
  | [] => .error .indexError
  | f :: rest =>
    let result := f d
    if result.isSome && !rest.isEmpty then get_filter_result d rest
    else .ok result

/-- `CiscoIosShowCdpNeghborsParser.get_filter_result(d, funcs)`: the
same recursion over dictionaries; a returned dict is truthy only when
it is non-empty. -/
def get_filter_result_cdp (d : List (String × String))
    (funcs : List (List (String × String) → Option (List (String × String)))) :
    Except PyErr (Option (List (String × String))) :=
  match funcs with
  | [] => .error .indexError
  | f :: rest =>
    let result := f d
    let truthy := match result with
      | none => false
      | some dd => !dd.isEmpty
    if truthy && !rest.isEmpty then get_filter_result_cdp d rest
    else .ok result

/-! ## `bin/cisco_ios_show_cdp_neighbors.py` -/

/-- The section-start marker of the cdp parser. -/
def cdpStartStr : String :=
  "Device ID        Local Intrfce     Holdtme    Capability  Platform  Port ID"

/-- The loop state of `CiscoIosShowCdpNeghborsParser.parse`: the
pending-lines accumulator `n` and the `is_section` flag. -/
structure CdpState where
  n : List String
  is_section : Bool
deriving DecidableEq, Repr

/-- `CiscoIosShowCdpNeghborsParser.make_dict_by_neighbor_lists`:
fixed-column slicing of a one- or two-line neighbor block into an
ordered dict.  (`parse` always passes a non-empty list; on `[]` the
Python code would raise `IndexError` at `lines[0]`.) -/
def make_dict_by_neighbor_lists (lines : List String) : List (String × String) :=
  match lines with
  | [] => []
  | l0 :: rest =>
    let devLine : String × String :=
      match rest with
      | [] => (pyStrip (pySlice l0 0 17), l0)
      | l1 :: _ => (pyStrip l0, l1)
    let line := devLine.2
    let d := [("device_id", devLine.1)]
    let d := if line.length ≥ 35 then
      d ++ [("local_interface", pyStrip (pySlice line 17 35))] else d
    let d := if line.length ≥ 46 then
      d ++ [("holdtime", pyStrip (pySlice line 35 46))] else d
    let d := if line.length ≥ 58 then
      d ++ [("capability", pyStrip (pySlice line 46 58))] else d
    let d := if line.length ≥ 68 then
      d ++ [("platform", pyStrip (pySlice line 58 68))] else d
    let d := if line.length > 68 then
      d ++ [("port_id", pyStrip (pySliceFrom line 68))] else d
    d

/-- One iteration of the `for line in lines` loop of the cdp `parse`:
rstrip, skip blanks, `#` turns the section off, the header line turns
it on, short (< 68 chars) in-section lines are accumulated in `n`, and
any other in-section line completes a neighbor block, which is yielded
as a dict while `n` is reset to `[]`. -/
def cdpStep (st : CdpState) (rawLine : String) :
    CdpState × Option (List (String × String)) :=
  let line := pyRstrip rawLine
  if line = "" then (st, none)
  else if hasSub "#".data line.data then ({ st with is_section := false }, none)
  else if hasSub cdpStartStr.data line.data then
    ({ st with is_section := true }, none)
  else if st.is_section = false then (st, none)
  else if line.length < 68 then ({ st with n := st.n ++ [line] }, none)
  else if leadsWith " ".data line.data then
    (⟨[], st.is_section⟩, some (make_dict_by_neighbor_lists (st.n ++ [line])))
  else
    (⟨[], st.is_section⟩, some (make_dict_by_neighbor_lists (st.n ++ [line])))

/-- The dicts yielded by the cdp `parse` generator from a given state. -/
def cdpRun (st : CdpState) : List String → List (List (String × String))
  | [] => []
  | l :: rest =>
    match cdpStep st l with
    | (st1, some d) => d :: cdpRun st1 rest
    | (st1, none) => cdpRun st1 rest

/-- The loop states of the cdp `parse`, one per iteration boundary
(before the first line, …, after the last line). -/
def cdpTrace (st : CdpState) : List String → List CdpState
  | [] => [st]
  | l :: rest => st :: cdpTrace (cdpStep st l).1 rest

/-- The initial loop state of the cdp `parse` (`n = []`,
`is_section = False`). -/
def initCdpState : CdpState := ⟨[], false⟩

/-- The control flow of the cdp script's `main` after argument
handling, as a function of what `get_lines` returned: on `None` (open
failure) or an empty line list it logs and returns exit status 1
without parsing or saving; otherwise it parses and saves the results
(the returned list models the CSV contents handed to `save`). -/
def cdp_main (linesResult : Option (List String)) :
    Nat × Option (List (List (String × String))) :=
  match linesResult with
  | none => (1, none)
  | some lines =>
    if lines.isEmpty then (1, none)
    else (0, some (cdpRun initCdpState lines))

/-! ## `bin/cisco_ios_show_interfaces_status.py` -/

/-- The section-start marker of the interfaces-status parser. -/
def statusStartStr : String :=
  "Port          Name               Status       Vlan       Duplex  Speed Type"

/-- `CiscoIosShowInterfacesStatusParser.make_dict_by_line`:
fixed-column slicing of one row into an ordered dict. -/
def make_dict_by_line (line : String) : List (String × String) :=
  [("Port", pyStrip (pySlice line 0 14)),
   ("Name", pyStrip (pySlice line 14 33)),
   ("Status", pyStrip (pySlice line 33 46)),
   ("Vlan", pyStrip (pySlice line 46 57)),
   ("Duplex", pyStrip (pySlice line 57 63)),
   ("Speed", pyStrip (pySlice line 63 70)),
   ("Type", if line.length > 70 then pyStrip (pySliceFrom line 70) else "")]

/-- One iteration of the interfaces-status `parse` loop: the state is
the single `is_section` boolean. -/
def statusStep (isSection : Bool) (rawLine : String) :
    Bool × Option (List (String × String)) :=
  let line := pyRstrip rawLine
  if line = statusStartStr then (true, none)
  else if line.length < 70 then (false, none)
  else if isSection = false then (isSection, none)
  else (isSection, some (make_dict_by_line line))

/-- The dicts yielded by the interfaces-status `parse` generator. -/
def statusRun (isSection : Bool) : List String → List (List (String × String))
  | [] => []
  | l :: rest =>
    match statusStep isSection l with
    | (b1, some d) => d :: statusRun b1 rest
    | (b1, none) => statusRun b1 rest

/-! ## Concrete values used by the claim witnesses and counterexamples -/

/-- A variable-length route line (matches `re_ipv4_variable_prefix`). -/
def c1r : String := "O 10.0.0.0/24 [110/2] via 1.1.1.1, 7w0d, Vlan1"

/-- An ECMP continuation line. -/
def c1e : String := "  [110/2] via 2.2.2.2, 7w0d, Vlan2"

/-- Carry-over state after processing `c1r`. -/
def c1st1 : RouteParseState := ⟨some "O", some "24", some "10.0.0.0"⟩

/-- Entry yielded for `c1r`. -/
def c1er : IPv4RouteEntry :=
  ⟨some "O", "10.0.0.0", some 24, "1.1.1.1", " Vlan1", 167772160⟩

/-- Entry yielded for `c1e` right after `c1r`. -/
def c1ee : IPv4RouteEntry :=
  ⟨some "O", "10.0.0.0", some 24, "2.2.2.2", " Vlan2", 167772160⟩

/-- A subnet-header line (matches `re_fixed_mask`). -/
def c1hdr : String := "      20.0.0.0/16 is subnetted, 3 subnets"

/-- Route line, then a subnet header, then an ECMP continuation. -/
def c1cexLines : List String := [c1r, c1hdr, c1e]

/-- A subnet-header line. -/
def c2h : String := "      20.0.0.0/16 is subnetted, 3 subnets"

/-- A variable-length route line that overwrites `current_mask`. -/
def c2v : String := "O 10.0.0.0/24 [110/2] via 1.1.1.1, 7w0d, Vlan1"

/-- A fixed-length route line (no explicit mask). -/
def c2f : String := "O E1 100.3.0.0 [110/122] via 10.245.2.2, 7w0d, Vlan102"

/-- Carry-over state after processing `c2h`. -/
def c2st1 : RouteParseState := ⟨none, some "16", some "20.0.0.0"⟩

/-- Carry-over state after `c2h` then `c2f`. -/
def c2stF : RouteParseState := ⟨some "O E1", some "16", some "100.3.0.0"⟩

/-- Entry yielded for `c2f` right after the `/16` header. -/
def c2ef : IPv4RouteEntry :=
  ⟨some "O E1", "100.3.0.0", some 16, "10.245.2.2", " Vlan102", 1677918208⟩

/-- Header, then a variable-length route, then a fixed-length route. -/
def c2cexLines : List String := [c2h, c2v, c2f]

/-- A variable-length route line. -/
def c3line : String := "O 10.244.0.0/24 [110/2] via 10.245.11.2, 7w0d, Vlan111"

/-- Entry yielded for `c3line`. -/
def c3entry : IPv4RouteEntry :=
  ⟨some "O", "10.244.0.0", some 24, "10.245.11.2", " Vlan111", 183762944⟩

/-- An ECMP continuation line (for the first-line crash). -/
def c4line : String := "  [110/2] via 2.2.2.2, 7w0d, Vlan2"

/-- Entry built with a `None` mask: its `mask` attribute is unset. -/
def c4entry : IPv4RouteEntry :=
  ⟨some "O", "10.0.0.0", none, "1.1.1.1", "V", 167772160⟩

/-- The cdp header followed by two consecutive short lines. -/
def c5lines : List String := [cdpStartStr, "aa", "bb"]

/-- A full-width cdp neighbor row (continuation form, 77 chars). -/
def c5row : String :=
  "                 Ten 2/4/4         147            R T S I WS-C3750X Ten 2/1/2"

/-- The dict produced for `c5row` with no pending first line. -/
def c5dict : List (String × String) :=
  [("device_id", ""), ("local_interface", "Ten 2/4/4"), ("holdtime", "147"),
   ("capability", "R T S I"), ("platform", "WS-C3750X"),
   ("port_id", "Ten 2/1/2")]

/-- The constructor applied to `0.0.1.0` (third octet non-zero). -/
def c6mk : Except PyErr IPv4RouteEntry :=
  mkIPv4RouteEntry (some "O") (some "0.0.1.0") (some "24") "1.1.1.1" "Vlan1"

/-- The constructor applied to `0.0.2.0`. -/
def c6x : Except PyErr IPv4RouteEntry :=
  mkIPv4RouteEntry (some "O") (some "0.0.2.0") (some "24") "1.1.1.1" "V"

/-- The constructor applied to `0.1.0.0`. -/
def c6y : Except PyErr IPv4RouteEntry :=
  mkIPv4RouteEntry (some "O") (some "0.1.0.0") (some "24") "1.1.1.1" "V"

/-- A compiled query for `filter_addr` (`re.compile("10")`). -/
def c7qa : RE := rstr "10"

/-- A compiled query for `filter_dict` (`re.compile("cat", re.IGNORECASE)`). -/
def c7qd : RE := rstr "cat"

/-- A route entry to filter. -/
def c7e : IPv4RouteEntry :=
  ⟨some "O", "10.0.0.0", some 24, "1.1.1.1", "Vlan1", 167772160⟩

/-- A cdp dict to filter. -/
def c7d : List (String × String) := [("device_id", "E-Cat3750X-41Stack")]

/-- The closure returned by `filter_dict("device_id", "cat")`. -/
def c7f : List (String × String) → Option (List (String × String)) :=
  fun d =>
    if (reSearch true c7qd (dictGet d "device_id" "").data).isSome then some d
    else none

/-- A dict filter that accepts every dict. -/
def c8fId : List (String × String) → Option (List (String × String)) :=
  fun d => some d

/-- A dict filter that rejects every dict. -/
def c8fNone : List (String × String) → Option (List (String × String)) :=
  fun _ => none

/-- A route entry for the filter-chain witness. -/
def c8entry : IPv4RouteEntry :=
  ⟨some "O", "10.0.0.0", some 24, "1.1.1.1", "Vlan1", 167772160⟩

/-- A route filter that accepts every entry. -/
def c8fIdR : IPv4RouteEntry → Option IPv4RouteEntry := fun e => some e

/-- A non-empty dict for the filter-chain witness. -/
def c8dict : List (String × String) := [("device_id", "X")]

/-- Two route entries equal on `addr`/`mask`/`gw`, different in
`proto` and `interface`. -/
def c10x : IPv4RouteEntry :=
  ⟨some "O", "10.0.0.0", some 24, "1.1.1.1", "Vlan1", 167772160⟩

/-- See `c10x`. -/
def c10y : IPv4RouteEntry :=
  ⟨some "S", "10.0.0.0", some 24, "1.1.1.1", "Vlan99", 167772160⟩

/-! ## Lemmas about `parse_lines` -/

/-- `parseLinesStep` rewritten as a dispatch on `lineKind` (the branch
taken depends only on the line). -/
def stepK (st : RouteParseState) (line : String) :
    Except PyErr (RouteParseState × Option (IPv4RouteEntry × String)) :=
  match lineKind line with
  | .kFixedMask =>
    let caps := (reSearch false re_fixed_mask line.data).getD []
    .ok ({ st with current_addr := some (capStr .gAddr caps),
                   current_mask := some (capStr .gMask caps) }, none)
  | .kVarMask => .ok (st, none)
  | .kConnected =>
    let caps := (reMatch0 false re_directly_connected line.data).getD []
    (mkIPv4RouteEntry (some (pyStrip (capStr .gProto caps)))
        (some (capStr .gAddr caps)) (some (capStr .gMask caps)) ""
        (capStr .gIntf caps)).map
      (fun e => (st, some (e, line)))
  | .kVarPfx =>
    let caps := (reMatch0 false re_ipv4_variable_prefix line.data).getD []
    let p := pyStrip (capStr .gProto caps)
    let a := capStr .gAddr caps
    let m := capStr .gMask caps
    (mkIPv4RouteEntry (some p) (some a) (some m) (capStr .gGw caps)
        (capStr .gIntf caps)).map
      (fun e => (⟨some p, some m, some a⟩, some (e, line)))
  | .kFixedPfx =>
    let caps := (reMatch0 false re_ipv4_fixed_prefix line.data).getD []
    let p := pyStrip (capStr .gProto caps)
    let a := capStr .gAddr caps
    (mkIPv4RouteEntry (some p) (some a) st.current_mask (capStr .gGw caps)
        (capStr .gIntf caps)).map
      (fun e => ({ st with current_proto := some p, current_addr := some a },
        some (e, line)))
  | .kEcmp =>
    let caps := (reMatch0 false re_ipv4_prefix_ecmp line.data).getD []
    (mkIPv4RouteEntry st.current_proto st.current_addr st.current_mask
        (capStr .gGw caps) (capStr .gIntf caps)).map
      (fun e => (st, some (e, line)))
  | .kOther => .ok (st, none)

theorem parseLinesStep_eq (st : RouteParseState) (line : String) :
    parseLinesStep st line = stepK st line := by
  unfold parseLinesStep stepK lineKind
  cases h1 : reSearch false re_fixed_mask line.data with
  | some c1 => simp
  | none =>
    cases h2 : reSearch false re_variable_mask line.data with
    | some c2 => simp
    | none =>
      cases h3 : reMatch0 false re_directly_connected line.data with
      | some c3 => simp
      | none =>
        cases h4 : reMatch0 false re_ipv4_variable_prefix line.data with
        | some c4 => simp
        | none =>
          cases h5 : reMatch0 false re_ipv4_fixed_prefix line.data with
          | some c5 => simp
          | none =>
            cases h6 : reMatch0 false re_ipv4_prefix_ecmp line.data with
            | some c6 => simp
            | none => simp

/-- Field values of a successfully constructed `IPv4RouteEntry`: the
attributes are the constructor arguments, with `mask` the parsed
integer of the `mask` string when one was given. -/
theorem mk_ok_fields {p : Option String} {a : String} {m : Option String}
    {g i : String} {e : IPv4RouteEntry}
    (h : mkIPv4RouteEntry p (some a) m g i = .ok e) :
    e.proto = p ∧ e.addr = a ∧ e.mask = m.bind pyInt? ∧ e.gw = g ∧
      e.interface = i := by
  unfold mkIPv4RouteEntry at h
  cases hm : m with
  | none =>
    subst hm
    dsimp only at h
    cases ha : addr32? a with
    | error er => rw [ha] at h; exact absurd h (by simp)
    | ok v =>
      rw [ha] at h
      dsimp only at h
      simp only [Except.ok.injEq] at h
      subst h
      simp
  | some ms =>
    subst hm
    dsimp only at h
    cases hi : pyInt? ms with
    | none => rw [hi] at h; exact absurd h (by simp)
    | some v =>
      rw [hi] at h
      dsimp only at h
      cases ha : addr32? a with
      | error er => rw [ha] at h; exact absurd h (by simp)
      | ok w =>
        rw [ha] at h
        dsimp only at h
        simp only [Except.ok.injEq] at h
        subst h
        simp [Option.bind, hi]

/-- Constructing an `IPv4RouteEntry` with `addr = None` (and no mask
string to fail on first) raises `AttributeError` at `addr.split('.')`. -/
theorem mk_none_addr (p : Option String) (g i : String) :
    mkIPv4RouteEntry p none none g i = .error .attributeError := by
  unfold mkIPv4RouteEntry
  rfl

/-- When the `mask` argument is not a string, the constructor leaves
the `mask` attribute unset. -/
theorem mk_mask_none {p a : Option String} {g i : String}
    {e : IPv4RouteEntry} (h : mkIPv4RouteEntry p a none g i = .ok e) :
    e.mask = none := by
  unfold mkIPv4RouteEntry at h
  dsimp only at h
  cases ha : a with
  | none => subst ha; exact absurd h (by simp)
  | some s =>
    subst ha
    dsimp only at h
    cases h32 : addr32? s with
    | error er => rw [h32] at h; exact absurd h (by simp)
    | ok v =>
      rw [h32] at h
      dsimp only at h
      simp only [Except.ok.injEq] at h
      subst h
      rfl

/-- A non-yielding, non-carry branch (`variably subnetted`, directly
connected, ECMP, unmatched) leaves the carry-over state unchanged. -/
theorem step_state_preserved {st st1 : RouteParseState} {line : String}
    {out : Option (IPv4RouteEntry × String)}
    (hk : lineKind line ≠ .kFixedMask ∧ lineKind line ≠ .kVarPfx ∧
      lineKind line ≠ .kFixedPfx)
    (h : parseLinesStep st line = .ok (st1, out)) : st1 = st := by
  rw [parseLinesStep_eq, stepK] at h
  obtain ⟨hk1, hk2, hk3⟩ := hk
  cases hl : lineKind line
  case kFixedMask => exact absurd hl hk1
  case kVarPfx => exact absurd hl hk2
  case kFixedPfx => exact absurd hl hk3
  case kVarMask =>
    rw [hl] at h
    dsimp only at h
    simp only [Except.ok.injEq, Prod.mk.injEq] at h
    exact h.1.symm
  case kOther =>
    rw [hl] at h
    dsimp only at h
    simp only [Except.ok.injEq, Prod.mk.injEq] at h
    exact h.1.symm
  case kConnected =>
    rw [hl] at h
    dsimp only at h
    cases hmk : mkIPv4RouteEntry
        (some (pyStrip (capStr .gProto ((reMatch0 false re_directly_connected line.data).getD []))))
        (some (capStr .gAddr ((reMatch0 false re_directly_connected line.data).getD [])))
        (some (capStr .gMask ((reMatch0 false re_directly_connected line.data).getD []))) ""
        (capStr .gIntf ((reMatch0 false re_directly_connected line.data).getD [])) with
    | error er => rw [hmk] at h; exact absurd h (by simp [Except.map])
    | ok e =>
      rw [hmk] at h
      simp only [Except.map, Except.ok.injEq, Prod.mk.injEq] at h
      exact h.1.symm
  case kEcmp =>
    rw [hl] at h
    dsimp only at h
    cases hmk : mkIPv4RouteEntry st.current_proto st.current_addr st.current_mask
        (capStr .gGw ((reMatch0 false re_ipv4_prefix_ecmp line.data).getD []))
        (capStr .gIntf ((reMatch0 false re_ipv4_prefix_ecmp line.data).getD [])) with
    | error er => rw [hmk] at h; exact absurd h (by simp [Except.map])
    | ok e =>
      rw [hmk] at h
      simp only [Except.map, Except.ok.injEq, Prod.mk.injEq] at h
      exact h.1.symm

/-- Every branch except the subnet header and the variable-length route
line leaves `current_mask` unchanged. -/
theorem step_mask_preserved {st st1 : RouteParseState} {line : String}
    {out : Option (IPv4RouteEntry × String)}
    (hk : lineKind line ≠ .kFixedMask ∧ lineKind line ≠ .kVarPfx)
    (h : parseLinesStep st line = .ok (st1, out)) :
    st1.current_mask = st.current_mask := by
  obtain ⟨hk1, hk2⟩ := hk
  by_cases hk3 : lineKind line = .kFixedPfx
  · rw [parseLinesStep_eq, stepK, hk3] at h
    dsimp only at h
    cases hmk : mkIPv4RouteEntry
        (some (pyStrip (capStr .gProto ((reMatch0 false re_ipv4_fixed_prefix line.data).getD []))))
        (some (capStr .gAddr ((reMatch0 false re_ipv4_fixed_prefix line.data).getD [])))
        st.current_mask
        (capStr .gGw ((reMatch0 false re_ipv4_fixed_prefix line.data).getD []))
        (capStr .gIntf ((reMatch0 false re_ipv4_fixed_prefix line.data).getD [])) with
    | error er => rw [hmk] at h; exact absurd h (by simp [Except.map])
    | ok e =>
      rw [hmk] at h
      simp only [Except.map, Except.ok.injEq, Prod.mk.injEq] at h
      rw [← h.1]
  · have := step_state_preserved ⟨hk1, hk2, hk3⟩ h
    rw [this]

/-- Over lines that reach none of the carry-setting branches, an
error-free run of `parse_lines` leaves the carry-over state unchanged. -/
theorem runLines_state_preserved (ls : List String) :
    ∀ st : RouteParseState,
      (∀ l ∈ ls, lineKind l ≠ .kFixedMask ∧ lineKind l ≠ .kVarPfx ∧
        lineKind l ≠ .kFixedPfx) →
      (runLines st ls).err = none → (runLines st ls).st = st := by
  induction ls with
  | nil => intro st _ _; rfl
  | cons l rest ih =>
    intro st hk herr
    have hkl := hk l (List.mem_cons_self l rest)
    have hkrest : ∀ x ∈ rest, lineKind x ≠ .kFixedMask ∧
        lineKind x ≠ .kVarPfx ∧ lineKind x ≠ .kFixedPfx :=
      fun x hx => hk x (List.mem_cons_of_mem l hx)
    rw [runLines] at herr ⊢
    cases hstep : parseLinesStep st l with
    | error e => simp [hstep] at herr
    | ok pr =>
      obtain ⟨st1, out⟩ := pr
      rw [hstep] at herr
      have hst1 : st1 = st := step_state_preserved hkl hstep
      cases out with
      | none =>
        dsimp only at herr ⊢
        rw [ih st1 hkrest herr, hst1]
      | some y =>
        dsimp only at herr ⊢
        rw [ih st1 hkrest herr, hst1]

/-- Over lines that reach neither the subnet-header branch nor the
variable-length route branch, an error-free run of `parse_lines`
leaves `current_mask` unchanged. -/
theorem runLines_mask_preserved (ls : List String) :
    ∀ st : RouteParseState,
      (∀ l ∈ ls, lineKind l ≠ .kFixedMask ∧ lineKind l ≠ .kVarPfx) →
      (runLines st ls).err = none →
      (runLines st ls).st.current_mask = st.current_mask := by
  induction ls with
  | nil => intro st _ _; rfl
  | cons l rest ih =>
    intro st hk herr
    have hkl := hk l (List.mem_cons_self l rest)
    have hkrest : ∀ x ∈ rest, lineKind x ≠ .kFixedMask ∧
        lineKind x ≠ .kVarPfx :=
      fun x hx => hk x (List.mem_cons_of_mem l hx)
    rw [runLines] at herr ⊢
    cases hstep : parseLinesStep st l with
    | error e => simp [hstep] at herr
    | ok pr =>
      obtain ⟨st1, out⟩ := pr
      rw [hstep] at herr
      have hst1 : st1.current_mask = st.current_mask :=
        step_mask_preserved hkl hstep
      cases out with
      | none =>
        dsimp only at herr ⊢
        rw [ih st1 hkrest herr, hst1]
      | some y =>
        dsimp only at herr ⊢
        rw [ih st1 hkrest herr, hst1]

/-- A line classified as a subnet header does match `re_fixed_mask`. -/
theorem lineKind_fixedMask_search {l : String} (h : lineKind l = .kFixedMask) :
    ∃ c, reSearch false re_fixed_mask l.data = some c := by
  cases hs : reSearch false re_fixed_mask l.data with
  | some c => exact ⟨c, rfl⟩
  | none =>
    unfold lineKind at h
    rw [hs] at h
    simp only [Option.isSome_none, Bool.false_eq_true, if_false] at h
    split_ifs at h

/-- Every yielding branch of `parse_lines` yields a pair whose second
component is the very line being processed. -/
theorem map_pair_snd {m : Except PyErr IPv4RouteEntry}
    {sA st1 : RouteParseState} {line : String} {y : IPv4RouteEntry × String}
    (h : Except.map (fun e => (sA, some (e, line))) m = .ok (st1, some y)) :
    y.2 = line := by
  cases m with
  | error er => exact absurd h (by simp [Except.map])
  | ok e0 =>
    simp only [Except.map, Except.ok.injEq, Prod.mk.injEq,
      Option.some.injEq] at h
    rw [← h.2]

/-- Every yielding branch of `parse_lines` yields a pair whose second
component is the very line being processed. -/
theorem step_out_snd {st st1 : RouteParseState} {line : String}
    {y : IPv4RouteEntry × String}
    (h : parseLinesStep st line = .ok (st1, some y)) : y.2 = line := by
  rw [parseLinesStep_eq, stepK] at h
  cases hl : lineKind line
  case kFixedMask => rw [hl] at h; dsimp only at h; exact absurd h (by simp)
  case kVarMask => rw [hl] at h; dsimp only at h; exact absurd h (by simp)
  case kOther => rw [hl] at h; dsimp only at h; exact absurd h (by simp)
  case kConnected => rw [hl] at h; dsimp only at h; exact map_pair_snd h
  case kVarPfx => rw [hl] at h; dsimp only at h; exact map_pair_snd h
  case kFixedPfx => rw [hl] at h; dsimp only at h; exact map_pair_snd h
  case kEcmp => rw [hl] at h; dsimp only at h; exact map_pair_snd h

/-- Every `(entry, line)` pair yielded by a run of `parse_lines` carries
one of the input lines as its second component. -/
theorem runLines_out_mem (ls : List String) :
    ∀ (st : RouteParseState) (y : IPv4RouteEntry × String),
      y ∈ (runLines st ls).out → y.2 ∈ ls := by
  induction ls with
  | nil => intro st y hy; simp [runLines] at hy
  | cons l rest ih =>
    intro st y hy
    rw [runLines] at hy
    cases hstep : parseLinesStep st l with
    | error e => rw [hstep] at hy; simp at hy
    | ok pr =>
      obtain ⟨st1, out⟩ := pr
      rw [hstep] at hy
      cases out with
      | none =>
        dsimp only at hy
        exact List.mem_cons_of_mem l (ih st1 y hy)
      | some y0 =>
        dsimp only at hy
        rcases List.mem_cons.mp hy with h0 | h0
        · subst h0
          rw [step_out_snd hstep]
          exact List.mem_cons_self _ _
        · exact List.mem_cons_of_mem l (ih st1 y h0)

/-- A row yielded by the interfaces-status step is the fixed-column
dict of the (rstripped) line being processed. -/
theorem statusStep_out {b b1 : Bool} {l : String} {d : List (String × String)}
    (h : statusStep b l = (b1, some d)) : d = make_dict_by_line (pyRstrip l) := by
  unfold statusStep at h
  dsimp only at h
  split_ifs at h <;> simp_all

/-- Every dict yielded by the interfaces-status `parse` is the
fixed-column dict of one of the input lines. -/
theorem statusRun_out (ls : List String) :
    ∀ (b : Bool) (d : List (String × String)), d ∈ statusRun b ls →
      ∃ l ∈ ls, d = make_dict_by_line (pyRstrip l) := by
  induction ls with
  | nil => intro b d hd; simp [statusRun] at hd
  | cons l rest ih =>
    intro b d hd
    rw [statusRun] at hd
    cases hstep : statusStep b l with
    | mk b1 o =>
      rw [hstep] at hd
      cases o with
      | none =>
        dsimp only at hd
        obtain ⟨l1, hl1, he⟩ := ih b1 d hd
        exact ⟨l1, List.mem_cons_of_mem _ hl1, he⟩
      | some d0 =>
        dsimp only at hd
        rcases List.mem_cons.mp hd with h0 | h0
        · subst h0
          exact ⟨l, List.mem_cons_self _ _, statusStep_out hstep⟩
        · obtain ⟨l1, hl1, he⟩ := ih b1 d h0
          exact ⟨l1, List.mem_cons_of_mem _ hl1, he⟩

/-- One cdp step keeps every pending line shorter than 68 characters. -/
theorem cdpStep_n_short {st : CdpState} {line : String}
    (hst : ∀ s ∈ st.n, s.length < 68) :
    ∀ s ∈ (cdpStep st line).1.n, s.length < 68 := by
  unfold cdpStep
  dsimp only
  split_ifs with h1 h2 h3 h4 h5 h6
  · exact hst
  · exact hst
  · exact hst
  · exact hst
  · intro s hs
    rcases List.mem_append.mp hs with hmem | hmem
    · exact hst s hmem
    · rw [List.mem_singleton.mp hmem]; exact h5
  · intro s hs; simp at hs
  · intro s hs; simp at hs

/-- Whenever a cdp step yields a record, the pending accumulator is
reset to `[]`. -/
theorem cdpStep_yield_clears {st st1 : CdpState} {line : String}
    {d : List (String × String)}
    (h : cdpStep st line = (st1, some d)) : st1.n = [] := by
  unfold cdpStep at h
  dsimp only at h
  split_ifs at h <;> simp_all
  · rw [← h.1]
  · rw [← h.1]

/-- The pending-lines invariant along the whole cdp parse trace. -/
theorem cdpTrace_n_short (ls : List String) :
    ∀ st : CdpState, (∀ s ∈ st.n, s.length < 68) →
      ∀ st1 ∈ cdpTrace st ls, ∀ s ∈ st1.n, s.length < 68 := by
  induction ls with
  | nil =>
    intro st hst st1 h1
    rw [cdpTrace] at h1
    rw [List.mem_singleton.mp h1]
    exact hst
  | cons l rest ih =>
    intro st hst st1 h1
    rw [cdpTrace] at h1
    rcases List.mem_cons.mp h1 with h | h
    · rw [h]; exact hst
    · exact ih (cdpStep st l).1 (cdpStep_n_short hst) st1 h

/-- Characterisation of the route script's `get_filter_result` on
filters that return their argument or `None`: the chain returns the
record iff every filter accepts it, and returns `None` otherwise. -/
theorem gfr_route_spec (d : IPv4RouteEntry) :
    ∀ funcs : List (IPv4RouteEntry → Option IPv4RouteEntry),
      funcs ≠ [] → (∀ f ∈ funcs, ∀ x, f x = some x ∨ f x = none) →
      ((get_filter_result d funcs = .ok (some d) ↔ ∀ f ∈ funcs, f d = some d) ∧
       (get_filter_result d funcs = .ok (some d) ∨
        get_filter_result d funcs = .ok none)) := by
  intro funcs
  induction funcs with
  | nil => intro h _; exact absurd rfl h
  | cons f rest ih =>
    intro _ hshape
    have hf := hshape f (List.mem_cons_self f rest)
    have hrest : ∀ g ∈ rest, ∀ x, g x = some x ∨ g x = none :=
      fun g hg => hshape g (List.mem_cons_of_mem f hg)
    rcases hf d with hfd | hfd
    · cases hr : rest with
      | nil =>
        subst hr
        unfold get_filter_result
        dsimp only
        rw [hfd]
        constructor
        · constructor
          · intro _ g hg
            rw [List.mem_singleton.mp hg]
            exact hfd
          · intro _; rfl
        · left; rfl
      | cons g gs =>
        subst hr
        unfold get_filter_result
        dsimp only
        rw [hfd]
        simp only [Option.isSome_some, List.isEmpty_cons, Bool.not_false,
          Bool.and_self, if_true]
        obtain ⟨ih1, ih2⟩ := ih (by simp) hrest
        refine ⟨?_, ih2⟩
        rw [ih1]
        constructor
        · intro hall f1 hf1
          rcases List.mem_cons.mp hf1 with h | h
          · rw [h]; exact hfd
          · exact hall f1 h
        · intro hall f1 hf1
          exact hall f1 (List.mem_cons_of_mem f hf1)
    · unfold get_filter_result
      dsimp only
      rw [hfd]
      simp only [Option.isSome_none, Bool.false_and, if_false]
      constructor
      · constructor
        · intro habs; exact absurd habs (by simp)
        · intro hall
          have := hall f (List.mem_cons_self f rest)
          rw [hfd] at this
          exact absurd this (by simp)
      · right; rfl

/-- The same characterisation for the cdp script's `get_filter_result`,
restricted to truthy (non-empty) dictionaries. -/
theorem gfr_cdp_spec (d : List (String × String)) (hd : d ≠ []) :
    ∀ funcs : List (List (String × String) → Option (List (String × String))),
      funcs ≠ [] → (∀ f ∈ funcs, ∀ x, f x = some x ∨ f x = none) →
      ((get_filter_result_cdp d funcs = .ok (some d) ↔
          ∀ f ∈ funcs, f d = some d) ∧
       (get_filter_result_cdp d funcs = .ok (some d) ∨
        get_filter_result_cdp d funcs = .ok none)) := by
  intro funcs
  induction funcs with
  | nil => intro h _; exact absurd rfl h
  | cons f rest ih =>
    intro _ hshape
    have hf := hshape f (List.mem_cons_self f rest)
    have hrest : ∀ g ∈ rest, ∀ x, g x = some x ∨ g x = none :=
      fun g hg => hshape g (List.mem_cons_of_mem f hg)
    have hdE : d.isEmpty = false := by
      cases d with
      | nil => exact absurd rfl hd
      | cons a l => rfl
    rcases hf d with hfd | hfd
    · cases hr : rest with
      | nil =>
        subst hr
        unfold get_filter_result_cdp
        dsimp only
        rw [hfd]
        simp only [List.isEmpty_nil, Bool.not_true, Bool.and_false,
          Bool.false_eq_true, if_false]
        constructor
        · constructor
          · intro _ g hg
            rw [List.mem_singleton.mp hg]
            exact hfd
          · intro _; trivial
        · left; trivial
      | cons g gs =>
        subst hr
        unfold get_filter_result_cdp
        dsimp only
        rw [hfd]
        simp only [hdE, List.isEmpty_cons, Bool.not_false, Bool.and_self,
          if_true]
        obtain ⟨ih1, ih2⟩ := ih (by simp) hrest
        refine ⟨?_, ih2⟩
        rw [ih1]
        constructor
        · intro hall f1 hf1
          rcases List.mem_cons.mp hf1 with h | h
          · rw [h]; exact hfd
          · exact hall f1 h
        · intro hall f1 hf1
          exact hall f1 (List.mem_cons_of_mem f hf1)
    · unfold get_filter_result_cdp
      dsimp only
      rw [hfd]
      simp only [Bool.false_and, if_false]
      constructor
      · constructor
        · intro habs; exact absurd habs (by simp)
        · intro hall
          have := hall f (List.mem_cons_self f rest)
          rw [hfd] at this
          exact absurd this (by simp)
      · right; rfl

/-- The two route-line branches: fields of the yielded entry and shape
of the updated carry-over state.  In both branches the new state is
`⟨proto, mask, addr⟩` where `proto`/`addr` are the entry's own values
and `mask` is the carried mask string whose parse is the entry's mask. -/
theorem route_step_state_fields {st0 st1 : RouteParseState} {r : String}
    {er : IPv4RouteEntry}
    (hr : lineKind r = .kVarPfx ∨ lineKind r = .kFixedPfx)
    (h : parseLinesStep st0 r = .ok (st1, some (er, r))) :
    ∃ p a, st1 = ⟨some p, st1.current_mask, some a⟩ ∧ er.proto = some p ∧
      er.addr = a ∧ er.mask = st1.current_mask.bind pyInt? := by
  rcases hr with hrv | hrf
  · rw [parseLinesStep_eq, stepK, hrv] at h
    dsimp only at h
    cases hmk : mkIPv4RouteEntry
        (some (pyStrip (capStr .gProto ((reMatch0 false re_ipv4_variable_prefix r.data).getD []))))
        (some (capStr .gAddr ((reMatch0 false re_ipv4_variable_prefix r.data).getD [])))
        (some (capStr .gMask ((reMatch0 false re_ipv4_variable_prefix r.data).getD [])))
        (capStr .gGw ((reMatch0 false re_ipv4_variable_prefix r.data).getD []))
        (capStr .gIntf ((reMatch0 false re_ipv4_variable_prefix r.data).getD [])) with
    | error e2 => rw [hmk] at h; exact absurd h (by simp [Except.map])
    | ok e0 =>
      rw [hmk] at h
      simp only [Except.map, Except.ok.injEq, Prod.mk.injEq,
        Option.some.injEq, and_true] at h
      obtain ⟨hst, he0⟩ := h
      obtain ⟨h1, h2, h3, -, -⟩ := mk_ok_fields hmk
      subst hst
      subst he0
      exact ⟨_, _, rfl, h1, h2, h3⟩
  · rw [parseLinesStep_eq, stepK, hrf] at h
    dsimp only at h
    cases hmk : mkIPv4RouteEntry
        (some (pyStrip (capStr .gProto ((reMatch0 false re_ipv4_fixed_prefix r.data).getD []))))
        (some (capStr .gAddr ((reMatch0 false re_ipv4_fixed_prefix r.data).getD [])))
        st0.current_mask
        (capStr .gGw ((reMatch0 false re_ipv4_fixed_prefix r.data).getD []))
        (capStr .gIntf ((reMatch0 false re_ipv4_fixed_prefix r.data).getD [])) with
    | error e2 => rw [hmk] at h; exact absurd h (by simp [Except.map])
    | ok e0 =>
      rw [hmk] at h
      simp only [Except.map, Except.ok.injEq, Prod.mk.injEq,
        Option.some.injEq, and_true] at h
      obtain ⟨hst, he0⟩ := h
      obtain ⟨h1, h2, h3, -, -⟩ := mk_ok_fields hmk
      subst hst
      subst he0
      exact ⟨_, _, rfl, h1, h2, h3⟩

/-- Fields of the entry yielded by the ECMP continuation branch when
the carry-over state is known. -/
theorem ecmp_step_fields {st1 stE : RouteParseState} {e : String}
    {p a : String} {mS : Option String} {ee : IPv4RouteEntry}
    (hst1 : st1 = ⟨some p, mS, some a⟩)
    (he : lineKind e = .kEcmp)
    (h : parseLinesStep st1 e = .ok (stE, some (ee, e))) :
    ee.proto = some p ∧ ee.addr = a ∧ ee.mask = mS.bind pyInt? := by
  subst hst1
  rw [parseLinesStep_eq, stepK, he] at h
  dsimp only at h
  cases hmk : mkIPv4RouteEntry (some p) (some a) mS
      (capStr .gGw ((reMatch0 false re_ipv4_prefix_ecmp e.data).getD []))
      (capStr .gIntf ((reMatch0 false re_ipv4_prefix_ecmp e.data).getD [])) with
  | error e2 => rw [hmk] at h; exact absurd h (by simp [Except.map])
  | ok e0 =>
    rw [hmk] at h
    simp only [Except.map, Except.ok.injEq, Prod.mk.injEq,
      Option.some.injEq, and_true] at h
    obtain ⟨-, he0⟩ := h
    obtain ⟨h1, h2, h3, -, -⟩ := mk_ok_fields hmk
    subst he0
    exact ⟨h1, h2, h3⟩

/-- The fixed-length route branch yields an entry whose `mask` is the
parse of the mask string carried into that line. -/
theorem fixedPfx_step_mask {st stF : RouteParseState} {f : String}
    {ef : IPv4RouteEntry}
    (hf : lineKind f = .kFixedPfx)
    (h : parseLinesStep st f = .ok (stF, some (ef, f))) :
    ef.mask = st.current_mask.bind pyInt? := by
  obtain ⟨p, a, hshape, -, -, hm⟩ := route_step_state_fields (Or.inr hf) h
  have hpres : stF.current_mask = st.current_mask :=
    step_mask_preserved ⟨by rw [hf]; simp, by rw [hf]; simp⟩ h
  rw [hm, hpres]

/-! ## Claim theorems -/

/-- C1 (amended): in `CiscoIosShowIpRouteParser.parse_lines`, the entry
yielded for an ECMP continuation line (branch `re_ipv4_prefix_ecmp`)
has `proto`, `addr` and `mask` equal to those of the entry yielded for
the most recent preceding route line (`re_ipv4_variable_prefix` or
`re_ipv4_fixed_prefix`), provided no subnet-header line
(`re_fixed_mask`) occurs between the two.  The frozen claim omits this
proviso and is refuted by `C1_header_overrides_cex`: a subnet header in
between overwrites the carried `addr` and `mask`. -/
theorem C1_ecmp_carries_route_values
    (st0 st1 stE : RouteParseState) (r e : String) (mid : List String)
    (er ee : IPv4RouteEntry)
    (hr : lineKind r = .kVarPfx ∨ lineKind r = .kFixedPfx)
    (hstepR : parseLinesStep st0 r = .ok (st1, some (er, r)))
    (hmid : ∀ l ∈ mid, lineKind l ≠ .kFixedMask ∧ lineKind l ≠ .kVarPfx ∧
      lineKind l ≠ .kFixedPfx)
    (hmidOk : (runLines st1 mid).err = none)
    (he : lineKind e = .kEcmp)
    (hstepE : parseLinesStep (runLines st1 mid).st e = .ok (stE, some (ee, e))) :
    ee.proto = er.proto ∧ ee.addr = er.addr ∧ ee.mask = er.mask := by
  obtain ⟨p, a, hshape, hp, ha, hm⟩ := route_step_state_fields hr hstepR
  rw [runLines_state_preserved mid st1 hmid hmidOk] at hstepE
  obtain ⟨hep, hea, hem⟩ := ecmp_step_fields hshape he hstepE
  exact ⟨by rw [hep, hp], by rw [hea, ha], by rw [hem, hm]⟩

/-- C1 witness: a variable-length route line immediately followed by an
ECMP continuation line, at the initial state. -/
theorem C1_ecmp_carries_route_values_witness :
    lineKind c1r = .kVarPfx ∧
    parseLinesStep initRouteState c1r = .ok (c1st1, some (c1er, c1r)) ∧
    lineKind c1e = .kEcmp ∧
    parseLinesStep (runLines c1st1 []).st c1e = .ok (c1st1, some (c1ee, c1e)) ∧
    (c1ee.proto = c1er.proto ∧ c1ee.addr = c1er.addr ∧
      c1ee.mask = c1er.mask) :=
  ⟨by decide, by decide, by decide, by decide,
   C1_ecmp_carries_route_values initRouteState c1st1 c1st1 c1r c1e [] c1er c1ee
     (Or.inl (by decide)) (by decide) (by simp) rfl (by decide) (by decide)⟩

/-- C1 counterexample: on `[c1r, c1hdr, c1e]` — a `/24` route line, a
`20.0.0.0/16 is subnetted` header, then an ECMP continuation — the
continuation entry gets `addr = "20.0.0.0"` and `mask = 16` from the
header, not the route line's `"10.0.0.0"` / `24` as the frozen claim
requires. -/
theorem C1_header_overrides_cex :
    (runLines initRouteState c1cexLines).out.map (fun y => (y.1.addr, y.1.mask)) =
      [("10.0.0.0", some 24), ("20.0.0.0", some 16)] ∧
    lineKind c1hdr = .kFixedMask ∧ lineKind c1e = .kEcmp := by
  exact ⟨by decide, by decide, by decide⟩

/-- C2 (amended): an entry yielded for a route line without an explicit
mask (branch `re_ipv4_fixed_prefix`) takes its `mask` from the mask
captured by the most recent subnet-header line (`re_fixed_mask`),
provided no other subnet header and no variable-length route line
(`re_ipv4_variable_prefix`, which also overwrites `current_mask`)
occurs in between.  The frozen claim omits the variable-length-route
proviso and is refuted by `C2_varlen_overrides_cex`. -/
theorem C2_fixed_route_mask_from_header
    (st0 st1 stF : RouteParseState) (hline f : String) (mid : List String)
    (outH : Option (IPv4RouteEntry × String)) (ef : IPv4RouteEntry)
    (hh : lineKind hline = .kFixedMask)
    (hstepH : parseLinesStep st0 hline = .ok (st1, outH))
    (hmid : ∀ l ∈ mid, lineKind l ≠ .kFixedMask ∧ lineKind l ≠ .kVarPfx)
    (hmidOk : (runLines st1 mid).err = none)
    (hf : lineKind f = .kFixedPfx)
    (hstepF : parseLinesStep (runLines st1 mid).st f = .ok (stF, some (ef, f))) :
    ef.mask = (headerMask hline).bind pyInt? := by
  obtain ⟨c, hsc⟩ := lineKind_fixedMask_search hh
  rw [parseLinesStep_eq, stepK, hh] at hstepH
  dsimp only at hstepH
  rw [hsc] at hstepH
  simp only [Option.getD_some] at hstepH
  simp only [Except.ok.injEq, Prod.mk.injEq] at hstepH
  obtain ⟨hst1, -⟩ := hstepH
  have hmask1 : st1.current_mask = some (capStr .gMask c) := by rw [← hst1]
  have hmaskM : (runLines st1 mid).st.current_mask = st1.current_mask :=
    runLines_mask_preserved mid st1 hmid hmidOk
  have hefm : ef.mask = ((runLines st1 mid).st.current_mask).bind pyInt? :=
    fixedPfx_step_mask hf hstepF
  rw [hefm, hmaskM, hmask1]
  unfold headerMask
  rw [hsc]
  rfl

/-- C2 witness: the `/16` header immediately followed by a fixed-length
route line; the yielded mask is the header's 16. -/
theorem C2_fixed_route_mask_from_header_witness :
    lineKind c2h = .kFixedMask ∧
    parseLinesStep initRouteState c2h = .ok (c2st1, none) ∧
    lineKind c2f = .kFixedPfx ∧
    parseLinesStep (runLines c2st1 []).st c2f = .ok (c2stF, some (c2ef, c2f)) ∧
    c2ef.mask = (headerMask c2h).bind pyInt? :=
  ⟨by decide, by decide, by decide, by decide,
   C2_fixed_route_mask_from_header initRouteState c2st1 c2stF c2h c2f [] none
     c2ef (by decide) (by decide) (by simp) rfl (by decide) (by decide)⟩

/-- C2 counterexample: on `[c2h, c2v, c2f]` — a `/16` header, a `/24`
variable-length route line, then a fixed-length route line — the
fixed-length entry gets `mask = 24` (overwritten by the variable-length
line), not the most recent header's 16 as the frozen claim requires. -/
theorem C2_varlen_overrides_cex :
    (runLines initRouteState c2cexLines).out.map (fun y => y.1.mask) =
      [some 24, some 24] ∧
    headerMask c2h = some "16" ∧ lineKind c2f = .kFixedPfx := by
  exact ⟨by decide, by decide, by decide⟩

/-- C3 (amended): `parse_lines` of the route script yields one
`(IPv4RouteEntry, line)` 2-tuple per parsed entity — not a bare
`IPv4RouteEntry` — whose second component is the input line that
produced it; the fixed-column parsers yield one dict per entity (shown
here for the interfaces-status parser: every yielded dict is
`make_dict_by_line` of one input line). -/
theorem C3_parse_yield_shapes :
    (∀ (lines : List String) (y : IPv4RouteEntry × String),
        y ∈ (runLines initRouteState lines).out → y.2 ∈ lines) ∧
    (∀ (b : Bool) (lines : List String) (d : List (String × String)),
        d ∈ statusRun b lines → ∃ l ∈ lines, d = make_dict_by_line (pyRstrip l)) :=
  ⟨fun lines y hy => runLines_out_mem lines initRouteState y hy,
   fun b lines d hd => statusRun_out lines b d hd⟩

/-- C3 witness: a single route line yields a pair whose second
component is that line. -/
theorem C3_parse_yield_shapes_witness :
    (c3entry, c3line) ∈ (runLines initRouteState [c3line]).out ∧
    c3line ∈ [c3line] :=
  ⟨by decide,
   C3_parse_yield_shapes.1 [c3line] (c3entry, c3line) (by decide)⟩

/-- C3 counterexample: the item yielded by `parse_lines` for `c3line`
is the 2-tuple `(entry, line)` — the generator executes
`yield ipv4_route_entry, line` — not a single `IPv4RouteEntry` record
as the frozen claim states. -/
theorem C3_yields_pairs_cex :
    (runLines initRouteState [c3line]).out = [(c3entry, c3line)] := by
  decide

/-- C4 (amended): `parse_lines` does not run to completion on every
input: an ECMP continuation line processed while the carried
`addr`/`mask` are still `None` raises `AttributeError` (the
`IPv4RouteEntry` constructor calls `addr.split('.')` on `None`) instead
of yielding an entry; and the constructor leaves the `mask` attribute
unset whenever the `mask` argument is not a string.  The frozen claim
("runs to completion without raising ... still yields an entry ...
mask always defined") is refuted by `C4_first_line_ecmp_raises_cex`. -/
theorem C4_ecmp_before_route_raises :
    (∀ (st : RouteParseState) (line : String), lineKind line = .kEcmp →
        st.current_addr = none → st.current_mask = none →
        parseLinesStep st line = .error .attributeError) ∧
    (∀ (p a : Option String) (g i : String) (e : IPv4RouteEntry),
        mkIPv4RouteEntry p a none g i = .ok e → e.mask = none) := by
  constructor
  · intro st line hk ha hm
    rw [parseLinesStep_eq, stepK, hk]
    dsimp only
    rw [ha, hm, mk_none_addr]
    rfl
  · intro p a g i e h
    exact mk_mask_none h

/-- C4 witness: the ECMP line as first input line raises, and a
successful construction with a `None` mask leaves `mask` unset. -/
theorem C4_ecmp_before_route_raises_witness :
    lineKind c4line = .kEcmp ∧
    parseLinesStep initRouteState c4line = .error .attributeError ∧
    mkIPv4RouteEntry (some "O") (some "10.0.0.0") none "1.1.1.1" "V" =
      .ok c4entry ∧
    c4entry.mask = none :=
  ⟨by decide,
   C4_ecmp_before_route_raises.1 initRouteState c4line (by decide) rfl rfl,
   by decide,
   C4_ecmp_before_route_raises.2 (some "O") (some "10.0.0.0") "1.1.1.1" "V"
     c4entry (by decide)⟩

/-- C4 counterexample: `parse_lines` on the single ECMP continuation
line stops with `AttributeError` and yields nothing, refuting the
frozen claim that it runs to completion and still yields an entry. -/
theorem C4_first_line_ecmp_raises_cex :
    runLines initRouteState [c4line] =
      ⟨[], some .attributeError, initRouteState⟩ := by
  decide

/-- C5 (amended): the carried state of the fixed-column parsers is the
`is_section` boolean plus, for the cdp parser, the pending-lines
accumulator `n`; every line stored in `n` is a (rstripped) in-section
line shorter than 68 characters, and `n` is reset to `[]` exactly when
a record is yielded — but `n` is NOT bounded by one element: two
consecutive short lines accumulate (see `C5_two_pending_lines_cex`),
refuting the frozen claim's "at most one deferred line". -/
theorem C5_cdp_pending_invariant :
    (∀ (lines : List String) (st st1 : CdpState),
        (∀ s ∈ st.n, s.length < 68) → st1 ∈ cdpTrace st lines →
        ∀ s ∈ st1.n, s.length < 68) ∧
    (∀ (st : CdpState) (line : String) (d : List (String × String))
        (st1 : CdpState), cdpStep st line = (st1, some d) → st1.n = []) :=
  ⟨fun lines st st1 h1 h2 => cdpTrace_n_short lines st h1 st1 h2,
   fun _ _ _ _ h => cdpStep_yield_clears h⟩

/-- C5 witness: the two-pending state is reachable and its lines are
short; a full-width row yields and clears the accumulator. -/
theorem C5_cdp_pending_invariant_witness :
    (⟨["aa", "bb"], true⟩ : CdpState) ∈ cdpTrace initCdpState c5lines ∧
    "aa".length < 68 ∧
    cdpStep ⟨[], true⟩ c5row = (⟨[], true⟩, some c5dict) ∧
    (⟨[], true⟩ : CdpState).n = [] :=
  ⟨by decide,
   C5_cdp_pending_invariant.1 c5lines initCdpState ⟨["aa", "bb"], true⟩
     (by decide) (by decide) "aa" (by decide),
   by decide,
   C5_cdp_pending_invariant.2 ⟨[], true⟩ c5row c5dict ⟨[], true⟩ (by decide)⟩

/-- C5 counterexample: after the cdp header line and the two short
lines `"aa"`, `"bb"`, the per-iteration pending accumulators are
`[]`, `[]`, `["aa"]`, `["aa", "bb"]` — the last loop state holds two
deferred lines, refuting "n holds at most one deferred line at any
loop iteration". -/
theorem C5_two_pending_lines_cex :
    (cdpTrace initCdpState c5lines).map (fun s => s.n) =
      [[], [], ["aa"], ["aa", "bb"]] := by
  decide

/-- C6 (code bug): `IPv4RouteEntry.__init__` computes
`int(cols[2] * 256)` — the third octet string repeated 256 times and
then parsed — instead of the evident `int(cols[2]) * 256`, so `addr32`
is NOT `a*2^24 + b*2^16 + c*2^8 + d` whenever the third octet is
non-zero, and the comparison operators do not agree with the numeric
32-bit order: for `0.0.2.0` vs `0.1.0.0` the code says `<` is false
although 512 < 65536.  The class docstring calls `addr32` "the int
representation of the address, mainly used for comparisons", so the
claim describes the intent and the code is a slip. -/
theorem C6_addr32_repeat_bug :
    c6mk.toOption.map (fun e => e.addr32) ≠
      some (0 * 256 * 256 * 256 + 0 * 256 * 256 + 1 * 256 + 0) ∧
    (c6mk.toOption.map (fun e => e.addr32)).isSome = true ∧
    c6x.toOption.map (fun x => c6y.toOption.map (fun y => pyLt x y)) =
      some (some false) ∧
    ((0 * 256 * 256 * 256 + 0 * 256 * 256 + 2 * 256 + 0 : Int) <
      0 * 256 * 256 * 256 + 1 * 256 * 256 + 0 * 256 + 0) := by
  exact ⟨by decide, by decide, by decide, by decide⟩

/-- C7 (confirmed): `filter_addr(query)` returns a closure that yields
the entry itself exactly when the compiled query `search`-matches the
entry's `addr` (and `None` otherwise), and `filter_dict(key, query)`
with a non-empty key returns a closure that yields the dict itself
exactly when the query `search`-matches `d.get(key, "")`
case-insensitively; in both cases the result is either `None` or the
unmodified record. -/
theorem C7_field_filters :
    (∀ (q : RE) (e : IPv4RouteEntry),
        (filter_addr q e = some e ↔
          (reSearch false q e.addr.data).isSome = true) ∧
        (filter_addr q e = some e ∨ filter_addr q e = none)) ∧
    (∀ (key : String) (q : RE)
        (f : List (String × String) → Option (List (String × String))),
        key ≠ "" → filter_dict key q = some f →
        ∀ d : List (String × String),
          (f d = some d ↔
            (reSearch true q (dictGet d key "").data).isSome = true) ∧
          (f d = some d ∨ f d = none)) := by
  constructor
  · intro q e
    unfold filter_addr
    by_cases hs : (reSearch false q e.addr.data).isSome = true
    · simp [hs]
    · simp [hs]
  · intro key q f hk hf d
    unfold filter_dict at hf
    rw [if_neg hk] at hf
    simp only [Option.some.injEq] at hf
    subst hf
    by_cases hs : (reSearch true q (dictGet d key "").data).isSome = true
    · simp [hs]
    · simp [hs]

/-- C7 witness: concrete queries on a concrete entry and dict (the
dict query "cat" matches "E-Cat3750X-41Stack" case-insensitively). -/
theorem C7_field_filters_witness :
    filter_addr c7qa c7e = some c7e ∧
    ("device_id" : String) ≠ "" ∧
    filter_dict "device_id" c7qd = some c7f ∧
    c7f c7d = some c7d :=
  ⟨(C7_field_filters.1 c7qa c7e).1.mpr (by decide),
   by decide, rfl,
   (C7_field_filters.2 "device_id" c7qd c7f (by decide) rfl c7d).1.mpr
     (by decide)⟩

/-- C8 (amended): `get_filter_result(d, funcs)` with non-empty `funcs`,
each filter mapping a record to itself or `None`, returns `d` iff every
filter returns `d`, and `None` otherwise — for the route script
unconditionally (an `IPv4RouteEntry` is always truthy), and for the cdp
script provided `d` is a truthy (non-empty) dict.  The frozen claim
omits the truthiness proviso and is refuted by
`C8_empty_dict_short_circuit_cex`: on an empty dict the chain stops
after the first filter because its result is falsy. -/
theorem C8_filter_chain_conjunction :
    (∀ (d : IPv4RouteEntry)
        (funcs : List (IPv4RouteEntry → Option IPv4RouteEntry)),
        funcs ≠ [] → (∀ f ∈ funcs, ∀ x, f x = some x ∨ f x = none) →
        ((get_filter_result d funcs = .ok (some d) ↔
            ∀ f ∈ funcs, f d = some d) ∧
         (get_filter_result d funcs = .ok (some d) ∨
          get_filter_result d funcs = .ok none))) ∧
    (∀ (d : List (String × String))
        (funcs : List (List (String × String) → Option (List (String × String)))),
        d ≠ [] → funcs ≠ [] → (∀ f ∈ funcs, ∀ x, f x = some x ∨ f x = none) →
        ((get_filter_result_cdp d funcs = .ok (some d) ↔
            ∀ f ∈ funcs, f d = some d) ∧
         (get_filter_result_cdp d funcs = .ok (some d) ∨
          get_filter_result_cdp d funcs = .ok none))) :=
  ⟨fun d funcs h1 h2 => gfr_route_spec d funcs h1 h2,
   fun d funcs hd h1 h2 => gfr_cdp_spec d hd funcs h1 h2⟩

/-- C8 witness: singleton all-accepting chains on a route entry and on
a non-empty dict return the record. -/
theorem C8_filter_chain_conjunction_witness :
    ([c8fIdR] ≠ ([] : List (IPv4RouteEntry → Option IPv4RouteEntry))) ∧
    c8dict ≠ [] ∧
    get_filter_result c8entry [c8fIdR] = .ok (some c8entry) ∧
    get_filter_result_cdp c8dict [c8fId] = .ok (some c8dict) :=
  ⟨by simp, by simp [c8dict],
   (C8_filter_chain_conjunction.1 c8entry [c8fIdR] (by simp)
       (by intro f hf x
           rw [List.mem_singleton.mp hf]
           left
           rfl)).1.mpr
     (by intro f hf
         rw [List.mem_singleton.mp hf]
         rfl),
   (C8_filter_chain_conjunction.2 c8dict [c8fId] (by simp [c8dict]) (by simp)
       (by intro f hf x
           rw [List.mem_singleton.mp hf]
           left
           rfl)).1.mpr
     (by intro f hf
         rw [List.mem_singleton.mp hf]
         rfl)⟩

/-- C8 counterexample: on the empty dict `[]`, the cdp
`get_filter_result` with an accepting first filter and a rejecting
second filter returns the dict itself — `funcs[1]` is never applied
because the first result `{}` is falsy — although not every filter
returns the record, refuting the frozen "returns d iff every filter
returns d". -/
theorem C8_empty_dict_short_circuit_cex :
    get_filter_result_cdp [] [c8fId, c8fNone] = .ok (some []) ∧
    c8fNone [] = none ∧ c8fId [] = some [] := by
  exact ⟨rfl, rfl, rfl⟩

/-- C9 (confirmed): when `get_lines` returns `None` (the input file
could not be opened) or an empty line list, the cdp script's `main`
returns exit status 1 and neither parses nor writes a CSV; there is no
retry.  `cdp_main` models `main`'s control flow as a function of the
`get_lines` result. -/
theorem C9_main_exit1_no_input (lr : Option (List String))
    (h : lr = none ∨ lr = some []) : cdp_main lr = (1, none) := by
  rcases h with h | h <;> subst h <;> rfl

/-- C9 witness: both failure shapes at concrete inputs. -/
theorem C9_main_exit1_no_input_witness :
    ((none : Option (List String)) = none ∨
      (none : Option (List String)) = some []) ∧
    cdp_main none = (1, none) ∧
    cdp_main (some []) = (1, none) :=
  ⟨Or.inl rfl, C9_main_exit1_no_input none (Or.inl rfl),
   C9_main_exit1_no_input (some []) (Or.inr rfl)⟩

/-- C10 (confirmed): `IPv4RouteEntry.__eq__` compares exactly `addr`,
`mask` and `gw` (ignoring `proto` and `interface`), `__ne__` is its
pointwise negation (also when `__eq__` raises), and two entries that
agree on `addr`/`mask`/`gw` are equal no matter their `proto` and
`interface` — which is why the route diff of `test_diff` (membership
via `__eq__`) treats such routes as identical.  Stated for entries
whose `mask` attribute is set; accessing a never-assigned `mask`
raises `AttributeError` in both operators. -/
theorem C10_eq_ignores_proto_interface :
    (∀ (x y : IPv4RouteEntry) (mx my : Int), x.mask = some mx →
        y.mask = some my →
        ((pyEq x y = .ok true ↔ (x.addr = y.addr ∧ mx = my ∧ x.gw = y.gw)) ∧
         (pyNe x y = .ok true ↔ ¬(x.addr = y.addr ∧ mx = my ∧ x.gw = y.gw)))) ∧
    (∀ x y : IPv4RouteEntry, pyNe x y = Except.map Bool.not (pyEq x y)) ∧
    (∀ (x y : IPv4RouteEntry) (mx : Int), x.mask = some mx →
        x.addr = y.addr → x.mask = y.mask → x.gw = y.gw →
        pyEq x y = .ok true) := by
  refine ⟨?_, ?_, ?_⟩
  · intro x y mx my hx hy
    unfold pyEq pyNe
    rw [hx, hy]
    dsimp only
    constructor
    · constructor
      · intro hE
        simp only [Except.ok.injEq, Bool.and_eq_true, decide_eq_true_eq] at hE
        exact ⟨hE.1.1, hE.1.2, hE.2⟩
      · intro hP
        simp only [Except.ok.injEq, Bool.and_eq_true, decide_eq_true_eq]
        exact ⟨⟨hP.1, hP.2.1⟩, hP.2.2⟩
    · constructor
      · intro hE hP
        simp only [Except.ok.injEq, Bool.not_eq_true'] at hE
        have hT : (decide (x.addr = y.addr) && decide (mx = my) &&
            decide (x.gw = y.gw)) = true := by
          simp only [Bool.and_eq_true, decide_eq_true_eq]
          exact ⟨⟨hP.1, hP.2.1⟩, hP.2.2⟩
        rw [hT] at hE
        exact absurd hE (by simp)
      · intro hP
        simp only [Except.ok.injEq, Bool.not_eq_true']
        cases hb : (decide (x.addr = y.addr) && decide (mx = my) &&
            decide (x.gw = y.gw)) with
        | false => rfl
        | true =>
          simp only [Bool.and_eq_true, decide_eq_true_eq] at hb
          exact absurd ⟨hb.1.1, hb.1.2, hb.2⟩ hP
  · intro x y
    obtain ⟨xp, xa, xm, xg, xi, x32⟩ := x
    obtain ⟨yp, ya, ym, yg, yi, y32⟩ := y
    cases xm <;> cases ym <;> rfl
  · intro x y mx hx haddr hmask hgw
    have hy : y.mask = some mx := by rw [← hmask, hx]
    unfold pyEq
    rw [hx, hy]
    dsimp only
    simp [haddr, hgw]

/-- C10 witness: two entries differing only in `proto` and `interface`
compare equal. -/
theorem C10_eq_ignores_proto_interface_witness :
    c10x.mask = some 24 ∧
    c10x.proto ≠ c10y.proto ∧ c10x.interface ≠ c10y.interface ∧
    pyEq c10x c10y = .ok true :=
  ⟨rfl, by decide, by decide,
   C10_eq_ignores_proto_interface.2.2 c10x c10y 24 rfl rfl rfl rfl⟩

end CiscoShow
